import Mathlib

/-!
Verification development for the `prediction-frontend` repository: a
React dashboard (`disaster-warning-system.jsx`) that displays geohazard
risk cells for Manipur districts and synthesizes road alerts.

The embedding below models, from the source:
* the static geographic catalog (`MAP_VIEWS`, `MANIPUR_DISTRICTS`);
* the alert synthesizer `detectRoadIntersections`;
* the payload normalization inside `fetchDisasterData` (a dynamic JSON
  value model with JavaScript truthiness and property-access semantics);
* the component state machine of `DisasterWarningSystem`: its state
  variables, its event handlers, and the React `useEffect` re-render
  loop (each effect re-runs exactly when its dependency array changed,
  effects run in declaration order against the render snapshot, queued
  state updates are applied in order);
* the utility functions `getRiskColor`, `getRiskLevel` and the derived
  `stats` aggregate.

Latitudes, longitudes and risk percentages are embedded as `ℚ` / `ℤ`.
-/

/-- Calamity types (`CALAMITY_TYPES` in the source): the closed
enumeration of supported hazards. -/
inductive CalType where
  | landslide
  | flood
deriving DecidableEq, Repr

/-- Rectangular bounds of a risk cell, as in the wire payload. -/
structure Bounds where
  minLat : ℚ
  minLon : ℚ
  maxLat : ℚ
  maxLon : ℚ
deriving DecidableEq, Repr

/-- A normalized risk cell as held in the component's `riskCells` state:
the shape produced by `fetchDisasterData`'s transform for well-formed
records. -/
structure RiskCell where
  bounds : Bounds
  cal_type : CalType
  risk_percentage : ℤ
  updated_at : ℕ
deriving DecidableEq, Repr

/-- A road alert as produced by `detectRoadIntersections`. -/
structure RoadAlert where
  id : String
  road : String
  severity : ℤ
  cells : List RiskCell
  message : String
  recommendation : String
deriving DecidableEq, Repr

/-- `Math.max(...band.map(c => c.risk_percentage))` for the non-empty
band lists the source applies it to. -/
def maxRisk : List RiskCell → ℤ
  | [] => 0
  | c :: cs => cs.foldl (fun m x => max m x.risk_percentage) c.risk_percentage

/-- The alert synthesizer `detectRoadIntersections(riskCells, calamityType)`
from the source: filter cells with `risk_percentage >= 30`, return `[]`
if none remain, split into latitude bands, then push fixed alert
templates for the non-empty bands relevant to the calamity type. -/
def detectRoadIntersections (riskCells : List RiskCell) (calamityType : CalType) :
    List RoadAlert :=
  let highRiskCells := riskCells.filter (fun c => c.risk_percentage ≥ 30)
  if highRiskCells.length = 0 then []
  else
    let northernRisk := highRiskCells.filter (fun c => c.bounds.minLat > 2485/100)
    let centralRisk := highRiskCells.filter
      (fun c => c.bounds.minLat ≥ 247/10 ∧ c.bounds.minLat ≤ 2485/100)
    let southernRisk := highRiskCells.filter (fun c => c.bounds.minLat < 247/10)
    match calamityType with
    | CalType.landslide =>
      (if northernRisk.length > 0 then
        [{ id := "nh2-north"
           road := "NH-2 (Imphal-Senapati Highway)"
           severity := maxRisk northernRisk
           cells := northernRisk
           message := "Hill road section may experience landslide blockage"
           recommendation := "Avoid travel on hill sections. Use alternative valley routes if available." }]
       else []) ++
      (if centralRisk.length > 0 then
        [{ id := "imphal-central"
           road := "Imphal City Ring Road"
           severity := maxRisk centralRisk
           cells := centralRisk
           message := "Slope-adjacent road sections at risk"
           recommendation := "Monitor conditions. Debris clearance may be required." }]
       else [])
    | CalType.flood =>
      (if centralRisk.length > 0 then
        [{ id := "imphal-valley"
           road := "Imphal Valley Low-lying Roads"
           severity := maxRisk centralRisk
           cells := centralRisk
           message := "Low-lying areas may experience flooding"
           recommendation := "Seek higher elevation. Avoid crossing flooded sections." }]
       else []) ++
      (if southernRisk.length > 0 then
        [{ id := "loktak-roads"
           road := "Roads near Loktak Lake"
           severity := maxRisk southernRisk
           cells := southernRisk
           message := "Waterlogging expected in lakeside areas"
           recommendation := "Use elevated bypass routes. Monitor water levels." }]
       else [])

/-- `getRiskColor(riskPercentage)` from the source. -/
def getRiskColor (riskPercentage : ℤ) : String :=
  if riskPercentage < 30 then "#22c55e"
  else if riskPercentage < 60 then "#f97316"
  else "#ef4444"

/-- `getRiskLevel(riskPercentage)` from the source. -/
def getRiskLevel (riskPercentage : ℤ) : String :=
  if riskPercentage < 30 then "Low Risk"
  else if riskPercentage < 60 then "Moderate Risk"
  else "High Risk"

/-- Aggregate risk counters: the `stats` object computed from
`filteredCells` in the component body. -/
structure Stats where
  total : ℕ
  highRisk : ℕ
  moderateRisk : ℕ
  lowRisk : ℕ
deriving DecidableEq, Repr

/-- The `stats` computation from the source. -/
def stats (filteredCells : List RiskCell) : Stats :=
  { total := filteredCells.length
    highRisk := (filteredCells.filter (fun c => c.risk_percentage ≥ 60)).length
    moderateRisk := (filteredCells.filter
      (fun c => c.risk_percentage ≥ 30 ∧ c.risk_percentage < 60)).length
    lowRisk := (filteredCells.filter (fun c => c.risk_percentage < 30)).length }

/-! ### Reference synthesizer, modelled from the specification's words
(for the refinement claim about `detectRoadIntersections`). -/

/-- Latitude bands named by the spec. -/
inductive LatBand where
  | north
  | central
  | south
deriving DecidableEq, Repr

/-- Band membership, using the inequalities exactly as the spec states
them: north is `minLat > 24.85`, central is `24.70 ≤ minLat ≤ 24.85`,
south is `minLat < 24.70`. -/
def inBand : LatBand → RiskCell → Bool
  | LatBand.north, c => 2485/100 < c.bounds.minLat
  | LatBand.central, c => 247/10 ≤ c.bounds.minLat ∧ c.bounds.minLat ≤ 2485/100
  | LatBand.south, c => c.bounds.minLat < 247/10

/-- Bands consulted per hazard mode, in the fixed emission order the
spec states: north then central for Landslide, central then south for
Flood. -/
def modeBands : CalType → List LatBand
  | CalType.landslide => [LatBand.north, LatBand.central]
  | CalType.flood => [LatBand.central, LatBand.south]

/-- Severity per the spec: the maximum `riskPercentage` over the band. -/
def specSeverity (band : List RiskCell) : ℤ :=
  ((band.map (fun c => c.risk_percentage)).max?).getD 0

/-- The fixed alert template the spec associates with each mode/band
pair that emits an alert; pairs that emit nothing yield `none`. -/
def specAlert : CalType → LatBand → List RiskCell → Option RoadAlert
  | CalType.landslide, LatBand.north, band => some
      { id := "nh2-north"
        road := "NH-2 (Imphal-Senapati Highway)"
        severity := specSeverity band
        cells := band
        message := "Hill road section may experience landslide blockage"
        recommendation := "Avoid travel on hill sections. Use alternative valley routes if available." }
  | CalType.landslide, LatBand.central, band => some
      { id := "imphal-central"
        road := "Imphal City Ring Road"
        severity := specSeverity band
        cells := band
        message := "Slope-adjacent road sections at risk"
        recommendation := "Monitor conditions. Debris clearance may be required." }
  | CalType.flood, LatBand.central, band => some
      { id := "imphal-valley"
        road := "Imphal Valley Low-lying Roads"
        severity := specSeverity band
        cells := band
        message := "Low-lying areas may experience flooding"
        recommendation := "Seek higher elevation. Avoid crossing flooded sections." }
  | CalType.flood, LatBand.south, band => some
      { id := "loktak-roads"
        road := "Roads near Loktak Lake"
        severity := specSeverity band
        cells := band
        message := "Waterlogging expected in lakeside areas"
        recommendation := "Use elevated bypass routes. Monitor water levels." }
  | _, _, _ => none

/-- The reference algorithm, following the claim's words: discard cells
with `riskPercentage < 30`, split the survivors into latitude bands, and
emit one alert per non-empty band relevant to the mode, in the fixed
band order. -/
def synthesizeSpec (cells : List RiskCell) (hazardType : CalType) : List RoadAlert :=
  let kept := cells.filter (fun c => ¬ c.risk_percentage < 30)
  (modeBands hazardType).filterMap (fun b =>
    let band := kept.filter (inBand b)
    if band.isEmpty then none else specAlert hazardType b band)

/-! ### Payload normalization (`fetchDisasterData`, lines 219 to 247)

The response body is a dynamic JSON value. The transform in the source
reads properties off untyped values and relies on JavaScript truthiness,
so the embedding models JSON values, `undefined` (as `Option.none` from
a property read), truthiness, and the `TypeError` exceptions that the
surrounding `try/catch` turns into a user-visible error message. -/

/-- A parsed JSON value, as returned by `response.json()`. -/
inductive JsonV where
  | null
  | bool (b : Bool)
  | num (q : ℚ)
  | str (s : String)
  | arr (elems : List JsonV)
  | obj (fields : List (String × JsonV))

/-- JavaScript truthiness of a JSON value. -/
def truthy : JsonV → Bool
  | JsonV.null => false
  | JsonV.bool b => b
  | JsonV.num q => q ≠ 0
  | JsonV.str s => s ≠ ""
  | JsonV.arr _ => true
  | JsonV.obj _ => true

/-- First binding of a key in an object's field list. -/
def jLookup (fields : List (String × JsonV)) (k : String) : Option JsonV :=
  (fields.find? (fun p => p.1 == k)).map (fun p => p.2)

/-- Property read that cannot throw: named fields of non-objects are
`undefined` (`none`). -/
def objLookup : JsonV → String → Option JsonV
  | JsonV.obj fields, k => jLookup fields k
  | _, _ => none

/-- JavaScript property access `v.k`: throws a `TypeError` on `null`,
otherwise yields the field value or `undefined` (`none`). -/
def getField (v : JsonV) (k : String) : Except String (Option JsonV) :=
  match v with
  | JsonV.null => Except.error ("Cannot read properties of null (reading " ++ k ++ ")")
  | _ => Except.ok (objLookup v k)

/-- One transformed cell as pushed by the source's `forEach` body: every
field is copied from the raw record (and may be `undefined`). -/
structure TCell where
  bounds : Option JsonV
  cal_type : Option JsonV
  risk_percentage : Option JsonV
  updated_at : Option JsonV

/-- The `forEach` body of the transform, for one raw record: push one
cell per truthy `flood` / `landslide` sub-record, copying `bounds` from
the record and the remaining fields from the sub-record. -/
def transformCell (cell : JsonV) : Except String (List TCell) := do
  let fl ← getField cell "flood"
  let floodCells ← (match fl with
    | some v =>
      if truthy v then do
        let b ← getField cell "bounds"
        let ct ← getField v "cal_type"
        let rp ← getField v "risk_percentage"
        let ua ← getField v "updated_at"
        pure [{ bounds := b, cal_type := ct, risk_percentage := rp, updated_at := ua }]
      else pure []
    | none => pure ([] : List TCell))
  let ls ← getField cell "landslide"
  let slideCells ← (match ls with
    | some v =>
      if truthy v then do
        let b ← getField cell "bounds"
        let ct ← getField v "cal_type"
        let rp ← getField v "risk_percentage"
        let ua ← getField v "updated_at"
        pure [{ bounds := b, cal_type := ct, risk_percentage := rp, updated_at := ua }]
      else pure []
    | none => pure ([] : List TCell))
  pure (floodCells ++ slideCells)

/-- `const rawCells = data.status || data || []` from the source. -/
def statusOrSelf (data : JsonV) : Except String JsonV := do
  let st ← getField data "status"
  match st with
  | some v =>
    if truthy v then pure v
    else pure (if truthy data then data else JsonV.arr [])
  | none => pure (if truthy data then data else JsonV.arr [])

/-- The whole payload transform of `fetchDisasterData`: resolve
`rawCells`, then run the `forEach`; calling `forEach` on a non-array
throws a `TypeError`, which the `catch` block surfaces as an error. -/
def transformPayload (data : JsonV) : Except String (List TCell) := do
  let rawCells ← statusOrSelf data
  match rawCells with
  | JsonV.arr xs => do
    let cellLists ← xs.mapM transformCell
    pure cellLists.flatten
  | _ => Except.error "rawCells.forEach is not a function"

/-- Key `k` carries a truthy sub-record in the raw record's fields. -/
def isPresent (fields : List (String × JsonV)) (k : String) : Bool :=
  match jLookup fields k with
  | some v => truthy v
  | none => false

/-- Closed form of the cells the `forEach` body pushes for one hazard
key of one raw object record. -/
def hazCells (fields : List (String × JsonV)) (k : String) : List TCell :=
  match jLookup fields k with
  | some v =>
    if truthy v then
      [{ bounds := jLookup fields "bounds", cal_type := objLookup v "cal_type",
         risk_percentage := objLookup v "risk_percentage", updated_at := objLookup v "updated_at" }]
    else []
  | none => []

/-- Fields of a raw record that carries a flood sub-record but no
`bounds` field at all. -/
def noBoundsFields : List (String × JsonV) :=
  [("flood", JsonV.obj [("cal_type", JsonV.str "flood"),
    ("risk_percentage", JsonV.num 72), ("updated_at", JsonV.str "ts")])]

/-- The single cell that the no-bounds record normalizes to. -/
def noBoundsCell : TCell :=
  { bounds := none
    cal_type := some (JsonV.str "flood")
    risk_percentage := some (JsonV.num 72)
    updated_at := some (JsonV.str "ts") }

/-- The payload is a wrapper object whose `status` field is a list. -/
def hasStatusListField : JsonV → Bool
  | JsonV.obj fields =>
    match jLookup fields "status" with
    | some (JsonV.arr _) => true
    | _ => false
  | _ => false

/-- The payload is a bare list. -/
def isBareList : JsonV → Bool
  | JsonV.arr _ => true
  | _ => false

/-- The payload is falsy but not `null` (`false`, `0`, or the empty
string): the only values the `|| []` fallback actually catches. -/
def isFalsyNonNull : JsonV → Bool
  | JsonV.bool b => !b
  | JsonV.num q => q = 0
  | JsonV.str s => s = ""
  | _ => false

/-- An `Except` computation ended in the error case. -/
def isErr {ε α : Type} : Except ε α → Bool
  | Except.error _ => true
  | Except.ok _ => false

/-! ### The `DisasterWarningSystem` component state machine

State variables, event handlers (`handleDistrictChange`,
`fetchDisasterData`, `handleRoadAlertClick`, the selection `onChange`
handlers and mode buttons), and the React effect loop. A `commit`
models one passive-effect flush: each of the three `useEffect` hooks
runs iff its dependency array differs from the values stored at its
last run; effect bodies read the render snapshot and their queued
updates are applied in declaration order. `stabilize` iterates commits
(a commit with unchanged dependencies is the identity). Network
resolution order is free: `pending` holds the district parameters of
outstanding fetches and a `fetchReturn` event may resolve any of them. -/

abbrev LatLon := ℚ × ℚ

structure Region where
  center : LatLon
  zoom : ℤ
deriving DecidableEq, Repr

def MAP_VIEWS_world : Region := { center := (20, 0), zoom := 2 }

def MAP_VIEWS_india : Region := { center := (225/10, 79), zoom := 5 }

def MAP_VIEWS_manipur : Region := { center := (248/10, 9395/100), zoom := 9 }

/-- The `MANIPUR_DISTRICTS` table from the source. -/
def MANIPUR_DISTRICTS : List (String × Region) :=
  [("Bishnupur", { center := (246167/10000, 937667/10000), zoom := 11 }),
   ("Chandel", { center := (243167/10000, 940167/10000), zoom := 10 }),
   ("Churachandpur", { center := (243333/10000, 936667/10000), zoom := 10 }),
   ("ImphalEast", { center := (247667/10000, 939667/10000), zoom := 11 }),
   ("ImphalWest", { center := (248167/10000, 939167/10000), zoom := 11 }),
   ("Jiribam", { center := (248083/10000, 931167/10000), zoom := 11 }),
   ("Kakching", { center := (244833/10000, 939833/10000), zoom := 11 }),
   ("Kamjong", { center := (248333/10000, 944167/10000), zoom := 10 }),
   ("Kangpokpi", { center := (252167/10000, 939833/10000), zoom := 10 }),
   ("Noney", { center := (2495/100, 936833/10000), zoom := 10 }),
   ("Pherzawl", { center := (241667/10000, 931167/10000), zoom := 10 }),
   ("Senapati", { center := (252667/10000, 940167/10000), zoom := 10 }),
   ("Tamenglong", { center := (249833/10000, 934833/10000), zoom := 10 }),
   ("Tengnoupal", { center := (243167/10000, 941333/10000), zoom := 10 }),
   ("Thoubal", { center := (246333/10000, 94), zoom := 11 }),
   ("Ukhrul", { center := (2505/100, 943667/10000), zoom := 10 })]

def districtLookup (k : String) : Option Region :=
  (MANIPUR_DISTRICTS.find? (fun p => p.1 == k)).map (fun p => p.2)

/-- `district.replace(/\s+/g, '')` from `fetchDisasterData`. -/
def stripWs (s : String) : String :=
  String.mk (s.data.filter (fun ch => !ch.isWhitespace))

/-- The component's `useState` variables. -/
structure AppState where
  selectedCountry : String
  selectedState : String
  selectedDistrict : String
  riskCells : List RiskCell
  roadAlerts : List RoadAlert
  calamityMode : CalType
  lastUpdated : Option ℕ
  loading : Bool
  error : Option String
  mapCenter : LatLon
  mapZoom : ℤ
  selectedRoadAlert : Option RoadAlert
deriving DecidableEq, Repr

/-- `filteredCells`, recomputed on every render in the source. -/
def filteredCells (s : AppState) : List RiskCell :=
  s.riskCells.filter (fun c => c.cal_type = s.calamityMode)

/-- Dependency arrays of the three `useEffect` hooks, as stored at each
hook's last run: `[selectedCountry]`, `[selectedState, selectedCountry]`
and `[filteredCells.length, calamityMode]`. -/
structure EffectDeps where
  countryDep : String
  stateDep : String × String
  alertsDep : ℕ × CalType
deriving DecidableEq, Repr

structure Component where
  state : AppState
  deps : EffectDeps
deriving DecidableEq, Repr

/-- Body of the country-selection effect (lines 173 to 185). -/
def countryEffectBody (snap : AppState) (st : AppState) : AppState :=
  if snap.selectedCountry = "India" then
    { st with mapCenter := MAP_VIEWS_india.center, mapZoom := MAP_VIEWS_india.zoom }
  else if snap.selectedCountry = "" then
    { st with mapCenter := MAP_VIEWS_world.center, mapZoom := MAP_VIEWS_world.zoom,
              selectedState := "", selectedDistrict := "",
              riskCells := [], roadAlerts := [] }
  else st

/-- Body of the state-selection effect (lines 188 to 199). -/
def stateEffectBody (snap : AppState) (st : AppState) : AppState :=
  if snap.selectedState = "Manipur" then
    { st with mapCenter := MAP_VIEWS_manipur.center, mapZoom := MAP_VIEWS_manipur.zoom }
  else if snap.selectedState = "" ∧ snap.selectedCountry = "India" then
    { st with mapCenter := MAP_VIEWS_india.center, mapZoom := MAP_VIEWS_india.zoom,
              selectedDistrict := "", riskCells := [], roadAlerts := [] }
  else st

/-- Body of the road-alert effect (lines 288 to 295). -/
def alertsEffectBody (snap : AppState) (st : AppState) : AppState :=
  { st with roadAlerts :=
      if (filteredCells snap).length > 0 then
        detectRoadIntersections (filteredCells snap) snap.calamityMode
      else [] }

/-- Current values of the three dependency arrays in a given state. -/
def depsOf (s : AppState) : EffectDeps :=
  { countryDep := s.selectedCountry
    stateDep := (s.selectedState, s.selectedCountry)
    alertsDep := ((filteredCells s).length, s.calamityMode) }

/-- One passive-effect flush: each effect whose dependency array
changed runs against the render snapshot, updates applied in
declaration order; every effect that ran stores the snapshot's
dependency values (an effect that did not run keeps its stored values,
which then already equal the snapshot's). -/
def commit (c : Component) : Component :=
  let s := c.state
  let s1 := if s.selectedCountry ≠ c.deps.countryDep then countryEffectBody s s else s
  let s2 := if (s.selectedState, s.selectedCountry) ≠ c.deps.stateDep then
      stateEffectBody s s1 else s1
  let s3 := if ((filteredCells s).length, s.calamityMode) ≠ c.deps.alertsDep then
      alertsEffectBody s s2 else s2
  { state := s3, deps := depsOf s }

/-- Iterated commits until the render loop quiesces (a commit whose
dependencies all match is the identity, so surplus fuel is harmless). -/
def stabilize : ℕ → Component → Component
  | 0, c => c
  | n + 1, c => stabilize n (commit c)

def FUEL : ℕ := 4

/-- `handleRoadAlertClick(alert)` from the source. -/
def handleRoadAlertClick (alert : RoadAlert) (s : AppState) : AppState :=
  let s1 := { s with selectedRoadAlert := some alert }
  match alert.cells with
  | [] => s1
  | cfirst :: _ =>
    { s1 with
      mapCenter := ((cfirst.bounds.minLat + cfirst.bounds.maxLat) / 2,
                    (cfirst.bounds.minLon + cfirst.bounds.maxLon) / 2)
      mapZoom := 12 }

/-- The synchronous prefix of `fetchDisasterData` (before the await). -/
def fetchStart (s : AppState) : AppState :=
  { s with loading := true, error := none, riskCells := [], roadAlerts := [] }

/-- The success continuation of `fetchDisasterData`: apply the
transformed cells, stamp `lastUpdated`, recenter to the district if it
is in the catalog, clear `loading`. No staleness check is performed. -/
def applyFetchOk (districtParam : String) (cells : List RiskCell) (t : ℕ)
    (s : AppState) : AppState :=
  let s1 := { s with riskCells := cells, lastUpdated := some t }
  let s2 := match districtLookup districtParam with
    | some r => { s1 with mapCenter := r.center, mapZoom := r.zoom }
    | none => s1
  { s2 with loading := false }

/-- The catch branch of `fetchDisasterData`. -/
def applyFetchErr (msg : String) (s : AppState) : AppState :=
  { s with error := some ("Failed to fetch prediction data: " ++ msg), loading := false }

inductive FetchResult where
  | ok (cells : List RiskCell) (t : ℕ)
  | fail (msg : String)

/-- External events: user selections, mode toggles, alert clicks, and
the resolution of an outstanding fetch (by its index in `pending`). -/
inductive Event where
  | selectCountry (c : String)
  | selectState (st : String)
  | selectDistrict (d : String)
  | setCalamityMode (m : CalType)
  | clickAlert (a : RoadAlert)
  | fetchReturn (i : ℕ) (r : FetchResult)

/-- The component together with its outstanding fetches. -/
structure Sys where
  comp : Component
  pending : List String
deriving Repr

/-- One event step: run the handler, then flush the effect loop. -/
def step (e : Event) (sys : Sys) : Sys :=
  match e with
  | Event.selectCountry c =>
    { comp := stabilize FUEL
        { state := { sys.comp.state with selectedCountry := c }, deps := sys.comp.deps }
      pending := sys.pending }
  | Event.selectState st =>
    { comp := stabilize FUEL
        { state := { sys.comp.state with selectedState := st }, deps := sys.comp.deps }
      pending := sys.pending }
  | Event.selectDistrict d =>
    if d = "" then
      { comp := stabilize FUEL
          { state := { sys.comp.state with
                        selectedDistrict := "", riskCells := [],
                        roadAlerts := [], mapCenter := MAP_VIEWS_manipur.center,
                        mapZoom := MAP_VIEWS_manipur.zoom }
            deps := sys.comp.deps }
        pending := sys.pending }
    else
      { comp := stabilize FUEL
          { state := fetchStart { sys.comp.state with selectedDistrict := d }
            deps := sys.comp.deps }
        pending := sys.pending ++ [stripWs d] }
  | Event.setCalamityMode m =>
    { comp := stabilize FUEL
        { state := { sys.comp.state with calamityMode := m }, deps := sys.comp.deps }
      pending := sys.pending }
  | Event.clickAlert a =>
    { comp := stabilize FUEL
        { state := handleRoadAlertClick a sys.comp.state, deps := sys.comp.deps }
      pending := sys.pending }
  | Event.fetchReturn i r =>
    if h : i < sys.pending.length then
      { comp := stabilize FUEL
          { state := match r with
              | FetchResult.ok cells t => applyFetchOk (sys.pending.get ⟨i, h⟩) cells t sys.comp.state
              | FetchResult.fail msg => applyFetchErr msg sys.comp.state
            deps := sys.comp.deps }
        pending := sys.pending.eraseIdx i }
    else sys

def initState : AppState :=
  { selectedCountry := ""
    selectedState := ""
    selectedDistrict := ""
    riskCells := []
    roadAlerts := []
    calamityMode := CalType.landslide
    lastUpdated := none
    loading := false
    error := none
    mapCenter := MAP_VIEWS_world.center
    mapZoom := MAP_VIEWS_world.zoom
    selectedRoadAlert := none }

/-- Post-mount component: on mount each effect runs once against the
initial state and leaves it unchanged, storing its dependency values. -/
def initComp : Component := { state := initState, deps := depsOf initState }

def initSys : Sys := { comp := initComp, pending := [] }

/-- A central-band landslide cell at 40 percent risk. -/
def cellLow : RiskCell :=
  { bounds := { minLat := 248/10, minLon := 939/10, maxLat := 2483/100, maxLon := 9393/100 }
    cal_type := CalType.landslide
    risk_percentage := 40
    updated_at := 100 }

/-- The same cell location at 90 percent risk. -/
def cellHigh : RiskCell :=
  { bounds := { minLat := 248/10, minLon := 939/10, maxLat := 2483/100, maxLon := 9393/100 }
    cal_type := CalType.landslide
    risk_percentage := 90
    updated_at := 200 }

/-- Execution in which the user selects Bishnupur (fetch outstanding),
then Chandel, and only then Bishnupur's fetch resolves. -/
def staleTrace : Sys :=
  step (Event.fetchReturn 0 (FetchResult.ok [cellLow] 100))
    (step (Event.selectDistrict "Chandel")
      (step (Event.selectDistrict "Bishnupur")
        (step (Event.selectState "Manipur")
          (step (Event.selectCountry "India") initSys))))

/-- Intermediate states of the executions below, spelled out so each
event step is checked against a concrete successor state. -/
def alert40 : RoadAlert :=
  { id := "imphal-central"
    road := "Imphal City Ring Road"
    severity := 40
    cells := [cellLow]
    message := "Slope-adjacent road sections at risk"
    recommendation := "Monitor conditions. Debris clearance may be required." }

def sysIndia : Sys :=
  { comp :=
      { state :=
          { initState with
              selectedCountry := "India"
              mapCenter := (225/10, 79)
              mapZoom := 5 }
        deps :=
          { countryDep := "India"
            stateDep := ("", "India")
            alertsDep := (0, CalType.landslide) } }
    pending := [] }

def sysManipur : Sys :=
  { comp :=
      { state :=
          { initState with
              selectedCountry := "India"
              selectedState := "Manipur"
              mapCenter := (248/10, 9395/100)
              mapZoom := 9 }
        deps :=
          { countryDep := "India"
            stateDep := ("Manipur", "India")
            alertsDep := (0, CalType.landslide) } }
    pending := [] }

def sysFetchB : Sys :=
  { comp :=
      { state :=
          { sysManipur.comp.state with
              selectedDistrict := "Bishnupur"
              loading := true }
        deps := sysManipur.comp.deps }
    pending := ["Bishnupur"] }

def sysFetchBC : Sys :=
  { comp :=
      { state :=
          { sysFetchB.comp.state with
              selectedDistrict := "Chandel" }
        deps := sysFetchB.comp.deps }
    pending := ["Bishnupur", "Chandel"] }

def sysStale : Sys :=
  { comp :=
      { state :=
          { sysFetchBC.comp.state with
              riskCells := [cellLow]
              roadAlerts := [alert40]
              lastUpdated := some 100
              loading := false
              mapCenter := (246167/10000, 937667/10000)
              mapZoom := 11 }
        deps :=
          { countryDep := "India"
            stateDep := ("Manipur", "India")
            alertsDep := (1, CalType.landslide) } }
    pending := ["Chandel"] }

def sysStale2 : Sys :=
  { comp :=
      { state :=
          { sysStale.comp.state with
              riskCells := [cellHigh]
              lastUpdated := some 200
              mapCenter := (243167/10000, 940167/10000)
              mapZoom := 10 }
        deps := sysStale.comp.deps }
    pending := [] }

def sysCleared : Sys :=
  { comp :=
      { state :=
          { initState with
              mapCenter := (248/10, 9395/100)
              mapZoom := 9 }
        deps :=
          { countryDep := ""
            stateDep := ("", "")
            alertsDep := (0, CalType.landslide) } }
    pending := [] }

/-- Continuation of `staleTrace`: the Chandel fetch then resolves with a
different single cell of the same filtered size. -/
def staleTrace2 : Sys :=
  step (Event.fetchReturn 0 (FetchResult.ok [cellHigh] 200)) staleTrace

/-- Execution that selects India, then Manipur, then clears the
country selection. -/
def clearCountryTrace : Sys :=
  step (Event.selectCountry "")
    (step (Event.selectState "Manipur") (step (Event.selectCountry "India") initSys))

/-- The stored selection-effect dependencies agree with the current
state (no country or state effect is due to run). -/
def SelSync (c : Component) : Prop :=
  c.deps.countryDep = c.state.selectedCountry ∧
  c.deps.stateDep = (c.state.selectedState, c.state.selectedCountry)

/-- Every stored dependency agrees with the current state: the render
loop is quiescent. -/
def FullSync (c : Component) : Prop :=
  SelSync c ∧ c.deps.alertsDep = ((filteredCells c.state).length, c.state.calamityMode)

theorem maxRisk_eq_specSeverity (l : List RiskCell) : maxRisk l = specSeverity l := by
  cases l with
  | nil => rfl
  | cons c cs =>
    show cs.foldl (fun m x => max m x.risk_percentage) c.risk_percentage
        = (some ((cs.map (fun c => c.risk_percentage)).foldl max c.risk_percentage)).getD 0
    rw [List.foldl_map]
    rfl

theorem band_north_eq (l : List RiskCell) :
    l.filter (fun c => c.bounds.minLat > 2485/100) = l.filter (inBand LatBand.north) := rfl

theorem band_central_eq (l : List RiskCell) :
    l.filter (fun c => c.bounds.minLat ≥ 247/10 ∧ c.bounds.minLat ≤ 2485/100)
      = l.filter (inBand LatBand.central) := rfl

theorem band_south_eq (l : List RiskCell) :
    l.filter (fun c => c.bounds.minLat < 247/10) = l.filter (inBand LatBand.south) := rfl

/-- The claim's statement that the source synthesizer coincides with the
reference algorithm, on every input. -/
theorem detect_eq_synthesizeSpec (cells : List RiskCell) (ty : CalType) :
    detectRoadIntersections cells ty = synthesizeSpec cells ty := by
  have hkept : cells.filter (fun c => c.risk_percentage ≥ 30)
      = cells.filter (fun c => ¬ c.risk_percentage < 30) :=
    List.filter_congr (fun c _ => by simp [decide_eq_decide])
  simp only [detectRoadIntersections, synthesizeSpec, hkept,
    band_north_eq, band_central_eq, band_south_eq, maxRisk_eq_specSeverity]
  set K := cells.filter (fun c => ¬ c.risk_percentage < 30) with hK
  clear_value K
  by_cases h0 : K.length = 0
  · rw [if_pos h0, List.length_eq_zero.mp h0]
    cases ty <;> rfl
  · rw [if_neg h0]
    cases ty with
    | landslide =>
      simp only [modeBands, List.filterMap_cons, List.filterMap_nil]
      cases hN : K.filter (inBand LatBand.north) <;>
        cases hC : K.filter (inBand LatBand.central) <;>
          simp [specAlert]
    | flood =>
      simp only [modeBands, List.filterMap_cons, List.filterMap_nil]
      cases hC : K.filter (inBand LatBand.central) <;>
        cases hS : K.filter (inBand LatBand.south) <;>
          simp [specAlert]

/-- The claim's statement about the risk-level classification: the three
ranges map to the three labels (and colors), and partition the integers,
hence in particular the interval from 0 to 100. -/
theorem riskLevel_partition (p : ℤ) :
    (getRiskLevel p = "Low Risk" ↔ p < 30) ∧
    (getRiskLevel p = "Moderate Risk" ↔ 30 ≤ p ∧ p < 60) ∧
    (getRiskLevel p = "High Risk" ↔ 60 ≤ p) ∧
    (getRiskColor p = "#22c55e" ↔ p < 30) ∧
    (getRiskColor p = "#f97316" ↔ 30 ≤ p ∧ p < 60) ∧
    (getRiskColor p = "#ef4444" ↔ 60 ≤ p) := by
  by_cases h1 : p < 30
  · simp only [getRiskLevel, getRiskColor, if_pos h1]
    refine ⟨?_, ?_, ?_, ?_, ?_, ?_⟩ <;> simp <;> omega
  · by_cases h2 : p < 60
    · simp only [getRiskLevel, getRiskColor, if_neg h1, if_pos h2]
      refine ⟨?_, ?_, ?_, ?_, ?_, ?_⟩ <;> simp <;> omega
    · simp only [getRiskLevel, getRiskColor, if_neg h1, if_neg h2]
      refine ⟨?_, ?_, ?_, ?_, ?_, ?_⟩ <;> simp <;> omega

/-- The claim's statement about the derived aggregate counts: high plus
moderate plus low equals the total, for every filtered cell list. -/
theorem stats_partition (cells : List RiskCell) :
    (stats cells).highRisk + (stats cells).moderateRisk + (stats cells).lowRisk
      = (stats cells).total := by
  simp only [stats]
  induction cells with
  | nil => rfl
  | cons c cs ih =>
    simp only [List.filter_cons, List.length_cons, decide_eq_true_eq]
    by_cases h1 : c.risk_percentage ≥ 60
    · rw [if_pos h1,
        if_neg (show ¬ (c.risk_percentage ≥ 30 ∧ c.risk_percentage < 60) by omega),
        if_neg (show ¬ c.risk_percentage < 30 by omega), List.length_cons]
      omega
    · by_cases h2 : c.risk_percentage ≥ 30
      · rw [if_neg h1,
          if_pos (show c.risk_percentage ≥ 30 ∧ c.risk_percentage < 60 by omega),
          if_neg (show ¬ c.risk_percentage < 30 by omega), List.length_cons]
        omega
      · rw [if_neg h1,
          if_neg (show ¬ (c.risk_percentage ≥ 30 ∧ c.risk_percentage < 60) by omega),
          if_pos (show c.risk_percentage < 30 by omega), List.length_cons]
        omega

theorem exc_bind_ok {α β : Type} (a : α) (f : α → Except String β) :
    (do let x ← Except.ok a; f x : Except String β) = f a := rfl

theorem exc_bind_err {α β : Type} (e : String) (f : α → Except String β) :
    (do let x ← (Except.error e : Except String α); f x : Except String β) = Except.error e := rfl

theorem exc_map_ok {α β : Type} (a : α) (f : α → β) :
    (f <$> (Except.ok a : Except String α) : Except String β) = Except.ok (f a) := rfl

theorem exc_pure {α : Type} (a : α) : (pure a : Except String α) = Except.ok a := rfl

theorem getField_of_truthy (v : JsonV) (k : String) (h : truthy v = true) :
    getField v k = Except.ok (objLookup v k) := by
  cases v with
  | null => simp [truthy] at h
  | bool b => rfl
  | num q => rfl
  | str s => rfl
  | arr xs => rfl
  | obj fs => rfl

/-- On an object record the `forEach` body never throws, and pushes
exactly the flood cells followed by the landslide cells. -/
theorem transformCell_obj (fields : List (String × JsonV)) :
    transformCell (JsonV.obj fields)
      = Except.ok (hazCells fields "flood" ++ hazCells fields "landslide") := by
  have hg : ∀ k, getField (JsonV.obj fields) k = Except.ok (jLookup fields k) := fun k => rfl
  simp only [transformCell, hazCells, hg]
  cases hf : jLookup fields "flood" with
  | none =>
    cases hl : jLookup fields "landslide" with
    | none => rfl
    | some v =>
      by_cases hv : truthy v = true
      · simp [hv, getField_of_truthy, exc_bind_ok, exc_map_ok, exc_pure]
      · simp [Bool.not_eq_true] at hv
        simp [hv, exc_bind_ok, exc_map_ok, exc_pure]
  | some v =>
    by_cases hv : truthy v = true
    · cases hl : jLookup fields "landslide" with
      | none => simp [hv, getField_of_truthy, exc_bind_ok, exc_map_ok, exc_pure]
      | some w =>
        by_cases hw : truthy w = true
        · simp [hv, hw, getField_of_truthy, exc_bind_ok, exc_map_ok, exc_pure]
        · simp [Bool.not_eq_true] at hw
          simp [hv, hw, getField_of_truthy, exc_bind_ok, exc_map_ok, exc_pure]
    · simp [Bool.not_eq_true] at hv
      cases hl : jLookup fields "landslide" with
      | none => simp [hv, exc_bind_ok, exc_map_ok, exc_pure]
      | some w =>
        by_cases hw : truthy w = true
        · simp [hv, hw, getField_of_truthy, exc_bind_ok, exc_map_ok, exc_pure]
        · simp [Bool.not_eq_true] at hw
          simp [hv, hw, exc_bind_ok, exc_map_ok, exc_pure]

theorem hazCells_length (fields : List (String × JsonV)) (k : String) :
    (hazCells fields k).length = if isPresent fields k then 1 else 0 := by
  unfold hazCells isPresent
  cases jLookup fields k with
  | none => rfl
  | some v =>
    by_cases hv : truthy v = true
    · simp [hv]
    · simp [Bool.not_eq_true] at hv
      simp [hv]

theorem hazCells_bounds (fields : List (String × JsonV)) (k : String) (c : TCell)
    (h : c ∈ hazCells fields k) : c.bounds = jLookup fields "bounds" := by
  unfold hazCells at h
  cases hk : jLookup fields k with
  | none =>
    rw [hk] at h
    simp at h
  | some v =>
    rw [hk] at h
    by_cases hv : truthy v = true
    · simp [hv] at h
      simp [h]
    · simp [Bool.not_eq_true] at hv
      simp [hv] at h

/-- Unfolding of the payload transform on an array `rawCells`. -/
theorem transformPayload_arr (xs : List JsonV) :
    transformPayload (JsonV.arr xs) = (do
      let cellLists ← xs.mapM transformCell
      pure cellLists.flatten : Except String (List TCell)) := rfl

/-- Unfolding of the payload transform once `rawCells` is resolved. -/
theorem transformPayload_raw (data raw : JsonV) (h : statusOrSelf data = Except.ok raw) :
    transformPayload data = (match raw with
      | JsonV.arr xs => do
          let cellLists ← xs.mapM transformCell
          pure cellLists.flatten
      | _ => Except.error "rawCells.forEach is not a function") := by
  simp only [transformPayload, h, exc_bind_ok]
  cases raw <;> rfl

/-- One record of a fetched payload normalizes to exactly one cell per
truthy hazard sub-record, each copying the record's `bounds`: no
sub-record gives zero cells, both sub-records give two. -/
theorem normalization_per_record (fields : List (String × JsonV)) :
    ∃ cs, transformCell (JsonV.obj fields) = Except.ok cs ∧
      cs.length = (if isPresent fields "flood" then 1 else 0)
        + (if isPresent fields "landslide" then 1 else 0) ∧
      ∀ c ∈ cs, c.bounds = jLookup fields "bounds" := by
  refine ⟨hazCells fields "flood" ++ hazCells fields "landslide",
    transformCell_obj fields, ?_, ?_⟩
  · simp [hazCells_length]
  · intro c hc
    rcases List.mem_append.mp hc with h | h
    · exact hazCells_bounds fields "flood" c h
    · exact hazCells_bounds fields "landslide" c h

/-- A record with missing bounds is not dropped: the payload holding
only that record normalizes to one cell (with `undefined` bounds), not
to zero cells. -/
theorem missing_bounds_cex :
    jLookup noBoundsFields "bounds" = none ∧
    transformPayload (JsonV.arr [JsonV.obj noBoundsFields]) = Except.ok [noBoundsCell] ∧
    ¬ transformPayload (JsonV.arr [JsonV.obj noBoundsFields])
        = Except.ok ([] : List TCell) :=
  ⟨rfl, rfl, fun h => (List.noConfusion (Except.ok.inj h) : False)⟩

/-- Amended behavior for records with missing bounds: such records are
not dropped; each truthy hazard sub-record still contributes one cell
whose `bounds` is `undefined`, no error is raised for the record, and
the surrounding payload is still normalized record by record. -/
theorem missing_bounds_not_dropped (fields : List (String × JsonV))
    (hb : jLookup fields "bounds" = none) :
    ∃ cs, transformCell (JsonV.obj fields) = Except.ok cs ∧
      (∀ c ∈ cs, c.bounds = none) ∧
      cs.length = (if isPresent fields "flood" then 1 else 0)
        + (if isPresent fields "landslide" then 1 else 0) ∧
      ∀ pre post out₁ out₂,
        transformPayload (JsonV.arr pre) = Except.ok out₁ →
        transformPayload (JsonV.arr post) = Except.ok out₂ →
        transformPayload (JsonV.arr (pre ++ JsonV.obj fields :: post))
          = Except.ok (out₁ ++ cs ++ out₂) := by
  refine ⟨hazCells fields "flood" ++ hazCells fields "landslide",
    transformCell_obj fields, ?_, ?_, ?_⟩
  · intro c hc
    rcases List.mem_append.mp hc with h | h
    · rw [hazCells_bounds fields "flood" c h, hb]
    · rw [hazCells_bounds fields "landslide" c h, hb]
  · simp [hazCells_length]
  · intro pre post out₁ out₂ h₁ h₂
    rw [transformPayload_arr] at h₁ h₂ ⊢
    cases hm₁ : pre.mapM transformCell with
    | error e => rw [hm₁, exc_bind_err] at h₁; exact absurd h₁ (by simp)
    | ok L₁ =>
      cases hm₂ : post.mapM transformCell with
      | error e => rw [hm₂, exc_bind_err] at h₂; exact absurd h₂ (by simp)
      | ok L₂ =>
        rw [hm₁, exc_bind_ok, exc_pure] at h₁
        rw [hm₂, exc_bind_ok, exc_pure] at h₂
        have e₁ := Except.ok.inj h₁
        have e₂ := Except.ok.inj h₂
        subst e₁
        subst e₂
        rw [List.mapM_append, hm₁, exc_bind_ok, List.mapM_cons,
          transformCell_obj, exc_bind_ok, hm₂, exc_bind_ok, exc_pure,
          exc_bind_ok, exc_pure, exc_bind_ok, exc_pure]
        simp [List.flatten_cons, List.flatten_append, List.append_assoc]

/-- An object payload with no `status` list and no array shape is
neither a wrapper nor a bare list, yet the transform fails (the
`forEach` call throws, surfaced by the `catch` block) instead of
yielding an empty sequence. -/
theorem payload_fallback_cex :
    hasStatusListField (JsonV.obj [("foo", JsonV.num 1)]) = false ∧
    isBareList (JsonV.obj [("foo", JsonV.num 1)]) = false ∧
    transformPayload (JsonV.obj [("foo", JsonV.num 1)])
      = Except.error "rawCells.forEach is not a function" :=
  ⟨rfl, rfl, rfl⟩

/-- Amended fallback behavior: a payload that is neither a wrapper with
a `status` list nor a bare list yields an error — except when it is
falsy and non-null (`false`, `0`, or the empty string), in which case
the `|| []` fallback yields an empty sequence with no error. -/
theorem payload_fallback_amended (data : JsonV)
    (h1 : hasStatusListField data = false) (h2 : isBareList data = false) :
    (isFalsyNonNull data = true → transformPayload data = Except.ok []) ∧
    (isFalsyNonNull data = false → isErr (transformPayload data) = true) := by
  constructor
  · intro hf
    cases data with
    | null => simp [isFalsyNonNull] at hf
    | bool b =>
      cases b with
      | false => rfl
      | true => simp [isFalsyNonNull] at hf
    | num q =>
      have hq : q = 0 := by simpa [isFalsyNonNull] using hf
      subst hq
      rfl
    | str s =>
      have hs : s = "" := by simpa [isFalsyNonNull] using hf
      subst hs
      rfl
    | arr xs => simp [isFalsyNonNull] at hf
    | obj fs => simp [isFalsyNonNull] at hf
  · intro hf
    cases data with
    | null => rfl
    | bool b =>
      cases b with
      | true => rfl
      | false => simp [isFalsyNonNull] at hf
    | num q =>
      have hq : ¬ q = 0 := by simpa [isFalsyNonNull] using hf
      have hs : statusOrSelf (JsonV.num q) = Except.ok (JsonV.num q) := by
        have hg : getField (JsonV.num q) "status" = Except.ok none := rfl
        simp only [statusOrSelf, hg, exc_bind_ok]
        simp [truthy, hq, exc_pure]
      rw [transformPayload_raw _ _ hs]
      rfl
    | str s =>
      have hq : ¬ s = "" := by simpa [isFalsyNonNull] using hf
      have hs : statusOrSelf (JsonV.str s) = Except.ok (JsonV.str s) := by
        have hg : getField (JsonV.str s) "status" = Except.ok none := rfl
        simp only [statusOrSelf, hg, exc_bind_ok]
        simp [truthy, hq, exc_pure]
      rw [transformPayload_raw _ _ hs]
      rfl
    | arr xs => simp [isBareList] at h2
    | obj fs =>
      have hg : getField (JsonV.obj fs) "status" = Except.ok (jLookup fs "status") := rfl
      cases hst : jLookup fs "status" with
      | none =>
        have hs : statusOrSelf (JsonV.obj fs) = Except.ok (JsonV.obj fs) := by
          simp only [statusOrSelf, hg, hst, exc_bind_ok]
          rfl
        rw [transformPayload_raw _ _ hs]
        rfl
      | some v =>
        by_cases hv : truthy v = true
        · have hs : statusOrSelf (JsonV.obj fs) = Except.ok v := by
            simp only [statusOrSelf, hg, hst, exc_bind_ok]
            simp [hv, exc_pure]
          rw [transformPayload_raw _ _ hs]
          cases v with
          | arr ys => simp [hasStatusListField, hst] at h1
          | null => simp [truthy] at hv
          | bool b => rfl
          | num q => rfl
          | str s => rfl
          | obj g => rfl
        · simp [Bool.not_eq_true] at hv
          have hs : statusOrSelf (JsonV.obj fs) = Except.ok (JsonV.obj fs) := by
            simp only [statusOrSelf, hg, hst, exc_bind_ok]
            simp [hv, exc_pure]
            rfl
          rw [transformPayload_raw _ _ hs]
          rfl

/-- Witness for the amended fallback theorem at the concrete payload
`3`: neither a wrapper nor a list, truthy, and the transform errors. -/
theorem payload_fallback_amended_witness :
    isErr (transformPayload (JsonV.num 3)) = true :=
  (payload_fallback_amended (JsonV.num 3) rfl rfl).2 rfl

set_option maxRecDepth 8000 in
theorem step_selIndia : step (Event.selectCountry "India") initSys = sysIndia := by
  with_unfolding_all rfl

set_option maxRecDepth 8000 in
theorem step_selManipur : step (Event.selectState "Manipur") sysIndia = sysManipur := by
  with_unfolding_all rfl

set_option maxRecDepth 8000 in
theorem step_selB : step (Event.selectDistrict "Bishnupur") sysManipur = sysFetchB := by
  with_unfolding_all rfl

set_option maxRecDepth 8000 in
theorem step_selC : step (Event.selectDistrict "Chandel") sysFetchB = sysFetchBC := by
  with_unfolding_all rfl

set_option maxRecDepth 8000 in
theorem step_resolveB :
    step (Event.fetchReturn 0 (FetchResult.ok [cellLow] 100)) sysFetchBC = sysStale := by
  with_unfolding_all rfl

set_option maxRecDepth 8000 in
theorem step_resolveC :
    step (Event.fetchReturn 0 (FetchResult.ok [cellHigh] 200)) sysStale = sysStale2 := by
  with_unfolding_all rfl

set_option maxRecDepth 8000 in
theorem step_clearCountry : step (Event.selectCountry "") sysManipur = sysCleared := by
  with_unfolding_all rfl

theorem staleTrace_eval : staleTrace = sysStale := by
  unfold staleTrace
  rw [step_selIndia, step_selManipur, step_selB, step_selC, step_resolveB]

/-- The superseded fetch for Bishnupur is applied to the visible state
even though Chandel is the most recent selection: the displayed cells,
last-updated stamp, and even the map view come from Bishnupur. -/
theorem staleFetch_applied_cex :
    staleTrace.comp.state.selectedDistrict = "Chandel" ∧
    staleTrace.comp.state.riskCells = [cellLow] ∧
    staleTrace.comp.state.lastUpdated = some 100 ∧
    staleTrace.comp.state.mapCenter = (246167/10000, 937667/10000) ∧
    staleTrace.comp.state.mapZoom = 11 := by
  rw [staleTrace_eval]
  exact ⟨rfl, rfl, rfl, rfl, rfl⟩

theorem staleTrace2_eval : staleTrace2 = sysStale2 := by
  unfold staleTrace2
  rw [staleTrace_eval, step_resolveC]

/-- After the store update that replaced the cells with a different set
of the same size, the displayed road alerts are stale: they are not the
result of re-running the synthesizer on the current filtered cells. -/
theorem alerts_stale_cex :
    staleTrace2.comp.state.riskCells = [cellHigh] ∧
    staleTrace2.comp.state.roadAlerts.map (fun a => a.severity) = [40] ∧
    (detectRoadIntersections (filteredCells staleTrace2.comp.state)
        staleTrace2.comp.state.calamityMode).map (fun a => a.severity) = [90] ∧
    ¬ staleTrace2.comp.state.roadAlerts
        = detectRoadIntersections (filteredCells staleTrace2.comp.state)
            staleTrace2.comp.state.calamityMode := by
  rw [staleTrace2_eval]
  have h90 : (detectRoadIntersections (filteredCells sysStale2.comp.state)
      sysStale2.comp.state.calamityMode).map (fun a => a.severity) = [90] := by
    with_unfolding_all rfl
  refine ⟨rfl, rfl, h90, fun h => ?_⟩
  have h2 : sysStale2.comp.state.roadAlerts.map (fun a => a.severity)
      = (detectRoadIntersections (filteredCells sysStale2.comp.state)
          sysStale2.comp.state.calamityMode).map (fun a => a.severity) := by rw [h]
  rw [h90] at h2
  have h40 : sysStale2.comp.state.roadAlerts.map (fun a => a.severity) = [40] := rfl
  rw [h40] at h2
  exact absurd h2 (by decide)

theorem clearCountryTrace_eval : clearCountryTrace = sysCleared := by
  unfold clearCountryTrace
  rw [step_selIndia, step_selManipur, step_clearCountry]

/-- Clearing the country does cascade (state, district, cells and alerts
are all cleared), but the final ViewState is the Manipur region, not the
World region: the state-selection effect re-fires during the cascade
(its dependency array contains `selectedCountry`) while `selectedState`
in its render snapshot is still `Manipur`, and its queued map update
overwrites the World view the country effect had just set. -/
theorem clear_country_viewstate_bug :
    clearCountryTrace.comp.state.selectedCountry = "" ∧
    clearCountryTrace.comp.state.selectedState = "" ∧
    clearCountryTrace.comp.state.selectedDistrict = "" ∧
    clearCountryTrace.comp.state.riskCells = [] ∧
    clearCountryTrace.comp.state.roadAlerts = [] ∧
    clearCountryTrace.comp.state.mapCenter = MAP_VIEWS_manipur.center ∧
    clearCountryTrace.comp.state.mapZoom = MAP_VIEWS_manipur.zoom ∧
    ¬ clearCountryTrace.comp.state.mapCenter = MAP_VIEWS_world.center := by
  rw [clearCountryTrace_eval]
  refine ⟨rfl, rfl, rfl, rfl, rfl, rfl, rfl, fun h => ?_⟩
  have h1 : (248/10 : ℚ) = 20 := congrArg Prod.fst h
  norm_num at h1

theorem commit_fullSync (c : Component) (h : FullSync c) : commit c = c := by
  obtain ⟨⟨h1, h2⟩, h3⟩ := h
  cases c with
  | mk s d =>
    cases d with
    | mk cd sd ad =>
      simp only at h1 h2 h3
      subst h1
      subst h2
      subst h3
      simp [commit, depsOf]

theorem stabilize_fullSync (n : ℕ) (c : Component) (h : FullSync c) : stabilize n c = c := by
  induction n with
  | zero => rfl
  | succ n ih =>
    show stabilize n (commit c) = c
    rw [commit_fullSync c h]
    exact ih

theorem commit_selSync (c : Component) (h : SelSync c) :
    commit c =
      if ((filteredCells c.state).length, c.state.calamityMode) = c.deps.alertsDep then
        { state := c.state, deps := depsOf c.state }
      else
        { state := alertsEffectBody c.state c.state, deps := depsOf c.state } := by
  obtain ⟨h1, h2⟩ := h
  by_cases h3 : ((filteredCells c.state).length, c.state.calamityMode) = c.deps.alertsDep
  · rw [if_pos h3]
    simp only [commit]
    rw [if_neg (not_ne_iff.mpr h1.symm), if_neg (not_ne_iff.mpr h2.symm),
      if_neg (not_ne_iff.mpr h3)]
  · rw [if_neg h3]
    simp only [commit]
    rw [if_neg (not_ne_iff.mpr h1.symm), if_neg (not_ne_iff.mpr h2.symm), if_pos h3]

theorem commit_state_selSync (c : Component) (h : SelSync c) :
    (commit c).state = { c.state with roadAlerts := (commit c).state.roadAlerts } ∧
    SelSync (commit c) := by
  rw [commit_selSync c h]
  by_cases h3 : ((filteredCells c.state).length, c.state.calamityMode) = c.deps.alertsDep
  · rw [if_pos h3]
    exact ⟨rfl, rfl, rfl⟩
  · rw [if_neg h3]
    exact ⟨rfl, rfl, rfl⟩

theorem stabilize_state_selSync (n : ℕ) (c : Component) (h : SelSync c) :
    (stabilize n c).state = { c.state with roadAlerts := (stabilize n c).state.roadAlerts } ∧
    SelSync (stabilize n c) := by
  induction n generalizing c with
  | zero => exact ⟨rfl, h⟩
  | succ n ih =>
    obtain ⟨hc1, hc2⟩ := commit_state_selSync c h
    obtain ⟨hs1, hs2⟩ := ih (commit c) hc2
    refine ⟨?_, hs2⟩
    show (stabilize n (commit c)).state = _
    rw [hs1, hc1]
    rfl

theorem step_fetchOk (sys : Sys) (i : ℕ) (cells : List RiskCell) (t : ℕ)
    (hi : i < sys.pending.length) :
    step (Event.fetchReturn i (FetchResult.ok cells t)) sys
      = { comp := stabilize FUEL
            { state := applyFetchOk (sys.pending.get ⟨i, hi⟩) cells t sys.comp.state
              deps := sys.comp.deps }
          pending := sys.pending.eraseIdx i } := by
  simp only [step]
  rw [dif_pos hi]

theorem step_fetchFail (sys : Sys) (i : ℕ) (msg : String)
    (hi : i < sys.pending.length) :
    step (Event.fetchReturn i (FetchResult.fail msg)) sys
      = { comp := stabilize FUEL
            { state := applyFetchErr msg sys.comp.state
              deps := sys.comp.deps }
          pending := sys.pending.eraseIdx i } := by
  simp only [step]
  rw [dif_pos hi]

theorem applyFetchOk_fields (dp : String) (cells : List RiskCell) (t : ℕ) (s : AppState) :
    (applyFetchOk dp cells t s).selectedCountry = s.selectedCountry ∧
    (applyFetchOk dp cells t s).selectedState = s.selectedState ∧
    (applyFetchOk dp cells t s).selectedDistrict = s.selectedDistrict ∧
    (applyFetchOk dp cells t s).riskCells = cells ∧
    (applyFetchOk dp cells t s).roadAlerts = s.roadAlerts ∧
    (applyFetchOk dp cells t s).calamityMode = s.calamityMode ∧
    (applyFetchOk dp cells t s).lastUpdated = some t ∧
    (applyFetchOk dp cells t s).error = s.error := by
  simp only [applyFetchOk]
  cases districtLookup dp <;> exact ⟨rfl, rfl, rfl, rfl, rfl, rfl, rfl, rfl⟩

/-- Amended behavior: the eventual result of ANY outstanding fetch is
applied to the visible state when it resolves, regardless of which
district is currently selected (the selection itself is untouched, so
the displayed data can belong to a district other than the selected
one). A failed stale fetch likewise surfaces its error. -/
theorem staleFetch_applied (sys : Sys) (hsel : SelSync sys.comp)
    (i : ℕ) (cells : List RiskCell) (t : ℕ) (msg : String)
    (hi : i < sys.pending.length) :
    ((step (Event.fetchReturn i (FetchResult.ok cells t)) sys).comp.state.riskCells = cells ∧
     (step (Event.fetchReturn i (FetchResult.ok cells t)) sys).comp.state.lastUpdated = some t ∧
     (step (Event.fetchReturn i (FetchResult.ok cells t)) sys).comp.state.selectedCountry
       = sys.comp.state.selectedCountry ∧
     (step (Event.fetchReturn i (FetchResult.ok cells t)) sys).comp.state.selectedState
       = sys.comp.state.selectedState ∧
     (step (Event.fetchReturn i (FetchResult.ok cells t)) sys).comp.state.selectedDistrict
       = sys.comp.state.selectedDistrict) ∧
    (step (Event.fetchReturn i (FetchResult.fail msg)) sys).comp.state.error
      = some ("Failed to fetch prediction data: " ++ msg) := by
  have hf := applyFetchOk_fields (sys.pending.get ⟨i, hi⟩) cells t sys.comp.state
  have hsel1 : SelSync
      { state := applyFetchOk (sys.pending.get ⟨i, hi⟩) cells t sys.comp.state
        deps := sys.comp.deps } := by
    constructor
    · show sys.comp.deps.countryDep = _
      rw [hf.1]
      exact hsel.1
    · show sys.comp.deps.stateDep = _
      rw [hf.2.1, hf.1]
      exact hsel.2
  have hst := stabilize_state_selSync FUEL _ hsel1
  have hselE : SelSync
      { state := applyFetchErr msg sys.comp.state
        deps := sys.comp.deps } := ⟨hsel.1, hsel.2⟩
  have hstE := stabilize_state_selSync FUEL _ hselE
  simp only [step_fetchOk sys i cells t hi, step_fetchFail sys i msg hi]
  refine ⟨⟨?_, ?_, ?_, ?_, ?_⟩, ?_⟩
  · rw [hst.1]
    exact hf.2.2.2.1
  · rw [hst.1]
    exact hf.2.2.2.2.2.2.1
  · rw [hst.1]
    exact hf.1
  · rw [hst.1]
    exact hf.2.1
  · rw [hst.1]
    exact hf.2.2.1
  · rw [hstE.1]
    rfl

theorem stabilize_alerts_rule (s' : AppState) (d : EffectDeps)
    (h : SelSync { state := s', deps := d }) :
    ((((filteredCells s').length, s'.calamityMode) = d.alertsDep →
        (stabilize FUEL { state := s', deps := d }).state.roadAlerts = s'.roadAlerts) ∧
     (((filteredCells s').length, s'.calamityMode) ≠ d.alertsDep →
        (stabilize FUEL { state := s', deps := d }).state.roadAlerts
          = if (filteredCells s').length > 0 then
              detectRoadIntersections (filteredCells s') s'.calamityMode
            else [])) := by
  constructor
  · intro he
    rw [stabilize_fullSync FUEL { state := s', deps := d } ⟨h, he.symm⟩]
  · intro hne
    show (stabilize 3 (commit { state := s', deps := d })).state.roadAlerts = _
    rw [commit_selSync { state := s', deps := d } h, if_neg hne]
    rw [stabilize_fullSync 3 _ (⟨⟨rfl, rfl⟩, rfl⟩ : FullSync
      { state := alertsEffectBody s' s', deps := depsOf s' })]
    rfl

/-- Amended recomputation rule: after a store update from a resolving
fetch, the road alerts are recomputed only when the pair (filtered cell
count, hazard mode) differs from the alert effect's stored dependencies;
a store update that replaces the cells with a different set of the same
filtered count leaves the previous alerts in place (stale). When the
count does change, the alerts equal a full re-run of the synthesizer on
the current filtered cells. -/
theorem alerts_recompute_rule (sys : Sys) (hq : FullSync sys.comp)
    (i : ℕ) (cells : List RiskCell) (t : ℕ) (hi : i < sys.pending.length) :
    ((cells.filter (fun c => c.cal_type = sys.comp.state.calamityMode)).length
        = (filteredCells sys.comp.state).length →
      (step (Event.fetchReturn i (FetchResult.ok cells t)) sys).comp.state.roadAlerts
        = sys.comp.state.roadAlerts) ∧
    ((cells.filter (fun c => c.cal_type = sys.comp.state.calamityMode)).length
        ≠ (filteredCells sys.comp.state).length →
      (step (Event.fetchReturn i (FetchResult.ok cells t)) sys).comp.state.roadAlerts
        = if (cells.filter (fun c => c.cal_type = sys.comp.state.calamityMode)).length > 0
          then detectRoadIntersections
              (cells.filter (fun c => c.cal_type = sys.comp.state.calamityMode))
              sys.comp.state.calamityMode
          else []) := by
  have hf := applyFetchOk_fields (sys.pending.get ⟨i, hi⟩) cells t sys.comp.state
  have hfc : filteredCells (applyFetchOk (sys.pending.get ⟨i, hi⟩) cells t sys.comp.state)
      = cells.filter (fun c => c.cal_type = sys.comp.state.calamityMode) := by
    unfold filteredCells
    simp only [hf.2.2.2.1, hf.2.2.2.2.2.1]
  have hsel1 : SelSync
      { state := applyFetchOk (sys.pending.get ⟨i, hi⟩) cells t sys.comp.state
        deps := sys.comp.deps } := by
    constructor
    · show sys.comp.deps.countryDep = _
      rw [hf.1]
      exact hq.1.1
    · show sys.comp.deps.stateDep = _
      rw [hf.2.1, hf.1]
      exact hq.1.2
  have hrule := stabilize_alerts_rule
    (applyFetchOk (sys.pending.get ⟨i, hi⟩) cells t sys.comp.state) sys.comp.deps hsel1
  simp only [step_fetchOk sys i cells t hi]
  constructor
  · intro hlen
    have he : ((filteredCells (applyFetchOk (sys.pending.get ⟨i, hi⟩) cells t
          sys.comp.state)).length,
        (applyFetchOk (sys.pending.get ⟨i, hi⟩) cells t sys.comp.state).calamityMode)
          = sys.comp.deps.alertsDep := by
      rw [hfc, hf.2.2.2.2.2.1, hq.2, hlen]
    rw [hrule.1 he]
    exact hf.2.2.2.2.1
  · intro hlen
    have hne : ¬ (((filteredCells (applyFetchOk (sys.pending.get ⟨i, hi⟩) cells t
          sys.comp.state)).length,
        (applyFetchOk (sys.pending.get ⟨i, hi⟩) cells t sys.comp.state).calamityMode)
          = sys.comp.deps.alertsDep) := by
      rw [hfc, hf.2.2.2.2.2.1, hq.2]
      intro he
      exact hlen (congrArg Prod.fst he)
    rw [hrule.2 hne, hfc, hf.2.2.2.2.2.1]

theorem handleRoadAlertClick_cons (a : RoadAlert) (s : AppState)
    (cfirst : RiskCell) (rest : List RiskCell) (hc : a.cells = cfirst :: rest) :
    handleRoadAlertClick a s
      = { s with selectedRoadAlert := some a
                 mapCenter := ((cfirst.bounds.minLat + cfirst.bounds.maxLat) / 2,
                               (cfirst.bounds.minLon + cfirst.bounds.maxLon) / 2)
                 mapZoom := 12 } := by
  unfold handleRoadAlertClick
  rw [hc]

theorem step_clickAlert_eq (sys : Sys) (a : RoadAlert) :
    step (Event.clickAlert a) sys
      = { comp := stabilize FUEL
            { state := handleRoadAlertClick a sys.comp.state, deps := sys.comp.deps }
          pending := sys.pending } := rfl

/-- Clicking a road alert with at least one contributing cell recenters
the view to the midpoint of the first contributing cell at the fixed
zoom 12, and leaves the whole navigation selection unchanged. -/
theorem alert_click_focus (sys : Sys) (hq : FullSync sys.comp) (a : RoadAlert)
    (cfirst : RiskCell) (rest : List RiskCell) (hc : a.cells = cfirst :: rest) :
    (step (Event.clickAlert a) sys).comp.state.mapCenter
      = ((cfirst.bounds.minLat + cfirst.bounds.maxLat) / 2,
         (cfirst.bounds.minLon + cfirst.bounds.maxLon) / 2) ∧
    (step (Event.clickAlert a) sys).comp.state.mapZoom = 12 ∧
    (step (Event.clickAlert a) sys).comp.state.selectedCountry
      = sys.comp.state.selectedCountry ∧
    (step (Event.clickAlert a) sys).comp.state.selectedState
      = sys.comp.state.selectedState ∧
    (step (Event.clickAlert a) sys).comp.state.selectedDistrict
      = sys.comp.state.selectedDistrict := by
  have hfull : FullSync
      { state := handleRoadAlertClick a sys.comp.state, deps := sys.comp.deps } := by
    rw [handleRoadAlertClick_cons a sys.comp.state cfirst rest hc]
    exact ⟨⟨hq.1.1, hq.1.2⟩, hq.2⟩
  simp only [step_clickAlert_eq, stabilize_fullSync FUEL _ hfull]
  rw [handleRoadAlertClick_cons a sys.comp.state cfirst rest hc]
  exact ⟨rfl, rfl, rfl, rfl, rfl⟩

/-- Witness for `staleFetch_applied` on the concrete double-fetch
execution: resolving the superseded Bishnupur fetch overwrites the
cells while Chandel stays selected. -/
theorem staleFetch_applied_witness :
    ((step (Event.fetchReturn 0 (FetchResult.ok [cellLow] 100))
        sysFetchBC).comp.state.riskCells = [cellLow] ∧
     (step (Event.fetchReturn 0 (FetchResult.ok [cellLow] 100))
        sysFetchBC).comp.state.lastUpdated = some 100 ∧
     (step (Event.fetchReturn 0 (FetchResult.ok [cellLow] 100))
        sysFetchBC).comp.state.selectedCountry = sysFetchBC.comp.state.selectedCountry ∧
     (step (Event.fetchReturn 0 (FetchResult.ok [cellLow] 100))
        sysFetchBC).comp.state.selectedState = sysFetchBC.comp.state.selectedState ∧
     (step (Event.fetchReturn 0 (FetchResult.ok [cellLow] 100))
        sysFetchBC).comp.state.selectedDistrict = sysFetchBC.comp.state.selectedDistrict) ∧
    (step (Event.fetchReturn 0 (FetchResult.fail "boom")) sysFetchBC).comp.state.error
      = some ("Failed to fetch prediction data: " ++ "boom") :=
  staleFetch_applied sysFetchBC ⟨rfl, rfl⟩ 0 [cellLow] 100 "boom" (by decide)

/-- Witness for `alerts_recompute_rule` on the concrete execution: the
same-size replacement leaves the alerts unchanged. -/
theorem alerts_recompute_rule_witness :
    (step (Event.fetchReturn 0 (FetchResult.ok [cellHigh] 200))
        sysStale).comp.state.roadAlerts = sysStale.comp.state.roadAlerts :=
  (alerts_recompute_rule sysStale ⟨⟨rfl, rfl⟩, rfl⟩ 0 [cellHigh] 200 (by decide)).1 rfl

/-- Witness for `missing_bounds_not_dropped` at the concrete no-bounds
record. -/
theorem missing_bounds_not_dropped_witness :
    ∃ cs, transformCell (JsonV.obj noBoundsFields) = Except.ok cs ∧
      (∀ c ∈ cs, c.bounds = none) ∧
      cs.length = (if isPresent noBoundsFields "flood" then 1 else 0)
        + (if isPresent noBoundsFields "landslide" then 1 else 0) ∧
      ∀ pre post out₁ out₂,
        transformPayload (JsonV.arr pre) = Except.ok out₁ →
        transformPayload (JsonV.arr post) = Except.ok out₂ →
        transformPayload (JsonV.arr (pre ++ JsonV.obj noBoundsFields :: post))
          = Except.ok (out₁ ++ cs ++ out₂) :=
  missing_bounds_not_dropped noBoundsFields rfl

/-- Witness for `alert_click_focus` at a concrete alert from the post
mount state. -/
theorem alert_click_focus_witness :
    (step (Event.clickAlert alert40) initSys).comp.state.mapCenter
      = ((cellLow.bounds.minLat + cellLow.bounds.maxLat) / 2,
         (cellLow.bounds.minLon + cellLow.bounds.maxLon) / 2) ∧
    (step (Event.clickAlert alert40) initSys).comp.state.mapZoom = 12 ∧
    (step (Event.clickAlert alert40) initSys).comp.state.selectedCountry
      = initSys.comp.state.selectedCountry ∧
    (step (Event.clickAlert alert40) initSys).comp.state.selectedState
      = initSys.comp.state.selectedState ∧
    (step (Event.clickAlert alert40) initSys).comp.state.selectedDistrict
      = initSys.comp.state.selectedDistrict :=
  alert_click_focus initSys ⟨⟨rfl, rfl⟩, rfl⟩ alert40 cellLow [] rfl
